import Mathlib

/-!
Verification of the authorization-aware action dispatch mechanism of
`kedro_vizro_labeling` (file `dashboards/protected_action.py`, with the
access-decision guard of the external `dash_auth` package modelled from the
specification, and the `set_props` variant of `dashboards/protected.py`).

The embedding is shallow: Python values flowing through the dispatch are an
inductive `PyVal`; Python exceptions surface as `Except PyError`; the in-place
mutation that `_transformed_outputs` performs on `self.outputs` is explicit
state passing on `PAState`.
-/

namespace KVL

/-- The three-way authorization outcome (spec §3, "Decision Verdict"). -/
inductive Verdict where
  | allowed
  | unauthenticated
  | forbidden
deriving DecidableEq, Repr

/-- `CheckType` of `dash_auth.group_protection`: `"one_of" | "all_of" | "none_of"`. -/
inductive CheckType where
  | one_of
  | all_of
  | none_of
deriving DecidableEq, Repr

/-- The group-membership field as stored in the Flask session record: absent,
a single delimited string, or a sequence of strings (spec §3, Session/Identity). -/
inductive GroupsField where
  | absent
  | asString (s : String)
  | asList (gs : List String)
deriving DecidableEq, Repr

/-- The session record of the caller: `authenticated` flag plus named fields that may
hold group membership (spec §3, Session/Identity). -/
structure Session where
  authenticated : Bool
  data : List (String × GroupsField)
deriving DecidableEq, Repr

/-- A permission requirement: required groups, the session key under which
membership is stored, an optional split separator and a check mode (spec §3). -/
structure Requirement where
  required_groups : List String
  groups_key : String
  groups_str_split : Option String
  check_type : CheckType
deriving DecidableEq, Repr

/-- Modelled from the spec: membership extraction by the Access Decision Guard,
which lives in the external `dash_auth` package, not under src/.  Spec §4.1:
"extract `membership = lookup(session, requirement.groups_key)`; if `membership`
is a single string and `requirement.groups_separator` is set, split it into a
sequence using that separator; if absent treat as empty sequence." -/
def lookupMembership (s : Session) (key : String) (sep : Option String) : List String :=
  match s.data.lookup key with
  | none => []
  | some GroupsField.absent => []
  | some (GroupsField.asString g) =>
      match sep with
      | some sp => g.splitOn sp
      | none => [g]
  | some (GroupsField.asList gs) => gs

/-- Non-empty intersection test on group lists (sets of strings in the spec). -/
def intersects (a b : List String) : Bool :=
  a.any (fun x => b.contains x)

/-- Modelled from the spec: the Access Decision Guard `decide(session,
requirement) -> Verdict` of the external `dash_auth` package (not under src/).
Spec §4.1: unauthenticated callers get `UNAUTHENTICATED`; empty
`required_groups` means authentication alone suffices; otherwise `ONE_OF` /
`ALL_OF` / `NONE_OF` compare membership against the required groups and any
non-allowed outcome is `FORBIDDEN`. -/
def decide (s : Session) (req : Requirement) : Verdict :=
  if !s.authenticated then Verdict.unauthenticated
  else
    let membership := lookupMembership s req.groups_key req.groups_str_split
    if req.required_groups.isEmpty then Verdict.allowed
    else
      let ok :=
        match req.check_type with
        | CheckType.one_of => intersects membership req.required_groups
        | CheckType.all_of => req.required_groups.all (fun g => membership.contains g)
        | CheckType.none_of => !intersects membership req.required_groups
      if ok then Verdict.allowed else Verdict.forbidden

/-- Python values flowing through the dispatch layer.  `noUpdate` is the Dash
`no_update` sentinel ("leave unchanged" marker), distinct from `none`. -/
inductive PyVal where
  | none
  | noUpdate
  | bool (b : Bool)
  | num (n : Int)
  | str (s : String)
  | list (xs : List PyVal)
  | tuple (xs : List PyVal)
  | dict (kvs : List (String × PyVal))

/-- `isinstance(v, Collection)`: Python lists, tuples, strings and dicts are
`typing.Collection`s; `None`, `no_update`, booleans and numbers are not. -/
def PyVal.isCollection : PyVal → Bool
  | PyVal.list _ => true
  | PyVal.tuple _ => true
  | PyVal.str _ => true
  | PyVal.dict _ => true
  | _ => false

/-- `isinstance(v, Mapping)`: only dicts are mappings. -/
def PyVal.isMapping : PyVal → Bool
  | PyVal.dict _ => true
  | _ => false

/-- Python `len` on collections (`None` elsewhere: `len` would raise). -/
def PyVal.pyLen : PyVal → Option Nat
  | PyVal.list xs => some xs.length
  | PyVal.tuple xs => some xs.length
  | PyVal.str s => some s.length
  | PyVal.dict kvs => some kvs.length
  | _ => Option.none

/-- The key list of a mapping value (`set(v)` iterates keys). -/
def PyVal.keys : PyVal → List String
  | PyVal.dict kvs => kvs.map Prod.fst
  | _ => []

/-- Set equality of key lists (`set(a) == set(b)` in Python). -/
def keySetEq (a b : List String) : Bool :=
  a.all (fun k => b.contains k) && b.all (fun k => a.contains k)

/-- A Dash `Output` object, as built by
`Output(*output.split("."), allow_duplicate=True)`. -/
structure DashOutput where
  args : List String
  allowDuplicate : Bool
deriving DecidableEq, Repr

/-- `_transform_output` inside `ProtectedAction._transformed_outputs`. -/
def transformOutput (output : String) : DashOutput :=
  ⟨output.splitOn ".", true⟩

/-- `self.outputs`: a list of dot-separated strings or a dictionary of them. -/
inductive OutputsDecl where
  | list (xs : List String)
  | dict (kvs : List (String × String))
deriving DecidableEq, Repr

/-- `len(self.outputs)`. -/
def OutputsDecl.len : OutputsDecl → Nat
  | OutputsDecl.list xs => xs.length
  | OutputsDecl.dict kvs => kvs.length

/-- The mutable attributes of a `ProtectedAction` instance
(`dashboards/protected_action.py`) that the dispatch logic reads and writes.
`n_outputs` models `self._n_outputs`, which does not exist before
`_transformed_outputs` first runs. -/
structure PAState where
  outputs : OutputsDecl
  groups : Option (List String)
  groups_key : String
  groups_str_split : Option String
  check_type : CheckType
  unauthenticated_modal_id : Option String
  missing_permission_modal_id : Option String
  n_outputs : Option Nat
deriving DecidableEq, Repr

/-- The permission requirement carried by a `ProtectedAction` and handed to
`protected` (`groups=None` degenerates to the authenticated-only check). -/
def requirementOf (st : PAState) : Requirement :=
  ⟨st.groups.getD [], st.groups_key, st.groups_str_split, st.check_type⟩

/-- Python exceptions raised by the dispatch layer, with the data their
messages carry. -/
inductive PyError where
  | attributeError (attr : String)
  | valueErrorNoOutputs
  | valueErrorNotMapping
  | valueErrorKeyMismatch (returnedKeys declaredKeys : List String)
  | valueErrorNotCollection
  | valueErrorLenMismatch (returnedLen declaredLen : Nat)
deriving DecidableEq, Repr

/-- The denial-slot strings appended to `self.outputs` by `_transformed_outputs`:
`f"{self.unauthenticated_modal_id}.is_open"` first (if configured), then
`f"{self.missing_permission_modal_id}.is_open"` (if configured). -/
def denialSlotStrings (st : PAState) : List String :=
  (match st.unauthenticated_modal_id with
   | some i => [i ++ ".is_open"]
   | Option.none => []) ++
  (match st.missing_permission_modal_id with
   | some i => [i ++ ".is_open"]
   | Option.none => [])

/-- The result of `_transformed_outputs`: a single `Output`, a list of them, or
a dictionary of them. -/
inductive TransformedOutputs where
  | single (o : DashOutput)
  | list (os : List DashOutput)
  | dict (kvs : List (String × DashOutput))
deriving DecidableEq, Repr

/-- The singleton special case of `_transformed_outputs`: a one-element list of
callback outputs is replaced by the bare `Output`, so the action function can
return a single value rather than a one-element list. -/
def collapseSingle (os : List DashOutput) : TransformedOutputs :=
  match os with
  | [o] => TransformedOutputs.single o
  | os => TransformedOutputs.list os

/-- `ProtectedAction._transformed_outputs` (property).  Sets
`self._n_outputs = len(self.outputs)` first; `outputs = self.outputs` aliases
the attribute, so the conditional `outputs.append(...)` calls mutate
`self.outputs` in place (modelled by returning the updated state).  A single
transformed output is returned bare rather than as a one-element list.
`.append` on a dict raises `AttributeError`. -/
def transformedOutputs (st : PAState) : Except PyError (PAState × TransformedOutputs) :=
  let n := st.outputs.len
  match st.outputs with
  | OutputsDecl.list xs =>
      let ext := xs ++ denialSlotStrings st
      let st1 := { st with outputs := OutputsDecl.list ext, n_outputs := some n }
      Except.ok (st1, collapseSingle (ext.map transformOutput))
  | OutputsDecl.dict kvs =>
      if st.unauthenticated_modal_id.isSome || st.missing_permission_modal_id.isSome then
        Except.error (PyError.attributeError "append")
      else
        Except.ok ({ st with n_outputs := some n },
          TransformedOutputs.dict (kvs.map (fun p => (p.fst, transformOutput p.snd))))

/-- `callback_outputs.get("external")`: the transformed outputs when truthy,
or `None` when the `"external"` key was not added by `build`. -/
inductive CallbackOutputs where
  | none'
  | single (o : DashOutput)
  | list (os : List DashOutput)
  | dict (kvs : List (String × DashOutput))
deriving DecidableEq, Repr

/-- Python truthiness of `external_callback_outputs` in `build`. -/
def TransformedOutputs.truthy : TransformedOutputs → Bool
  | TransformedOutputs.single _ => true
  | TransformedOutputs.list os => !os.isEmpty
  | TransformedOutputs.dict kvs => !kvs.isEmpty

/-- `build`: `callback_outputs["external"] = external_callback_outputs` only
when truthy, so `callback_outputs.get("external")` is `None` otherwise. -/
def toCallbackOutputs (t : TransformedOutputs) : CallbackOutputs :=
  if t.truthy then
    match t with
    | TransformedOutputs.single o => CallbackOutputs.single o
    | TransformedOutputs.list os => CallbackOutputs.list os
    | TransformedOutputs.dict kvs => CallbackOutputs.dict kvs
  else CallbackOutputs.none'

/-- Python falsiness of the `outputs` argument of `_action_callback_function`
(`if not outputs:`). -/
def CallbackOutputs.falsy : CallbackOutputs → Bool
  | CallbackOutputs.none' => true
  | CallbackOutputs.single _ => false
  | CallbackOutputs.list os => os.isEmpty
  | CallbackOutputs.dict kvs => kvs.isEmpty

/-- Number of output slots the reactive layer binds for the callback. -/
def CallbackOutputs.slotCount : CallbackOutputs → Nat
  | CallbackOutputs.none' => 0
  | CallbackOutputs.single _ => 1
  | CallbackOutputs.list os => os.length
  | CallbackOutputs.dict kvs => kvs.length

/-- The denial-flag appending step of `_action_callback_function`: wrap a
non-`Collection` return value in a fresh one-element list, then call
`.extend(flags)` — which only lists have, so a non-list `Collection`
(tuple, string, dict) raises `AttributeError`. -/
def extendWithFlags (return_value : PyVal) (flags : List PyVal) : Except PyError PyVal :=
  match return_value with
  | PyVal.list xs => Except.ok (PyVal.list (xs ++ flags))
  | v =>
      if v.isCollection then Except.error (PyError.attributeError "extend")
      else Except.ok (PyVal.list (v :: flags))

/-- `ProtectedAction._action_callback_function` of
`dashboards/protected_action.py`: call the wrapped function, append cleared
denial flags for the configured modal slots, then error-check the return value
against the (already denial-extended) `outputs` without reshaping it. -/
def actionCallbackFunction (st : PAState) (function : PyVal → PyVal) (inputs : PyVal)
    (outputs : CallbackOutputs) : Except PyError PyVal := do
  let rv0 := function inputs
  let return_value ←
    if st.unauthenticated_modal_id.isSome && st.missing_permission_modal_id.isSome then
      extendWithFlags rv0 [PyVal.bool false, PyVal.bool false]
    else if st.unauthenticated_modal_id.isSome || st.missing_permission_modal_id.isSome then
      extendWithFlags rv0 [PyVal.bool false]
    else pure rv0
  if outputs.falsy then
    match return_value with
    | PyVal.none => Except.ok PyVal.none
    | _ => Except.error PyError.valueErrorNoOutputs
  else
    match outputs with
    | CallbackOutputs.dict kvs =>
        match return_value with
        | PyVal.dict m =>
            if keySetEq (m.map Prod.fst) (kvs.map Prod.fst) then Except.ok (PyVal.dict m)
            else Except.error (PyError.valueErrorKeyMismatch (m.map Prod.fst) (kvs.map Prod.fst))
        | _ => Except.error PyError.valueErrorNotMapping
    | CallbackOutputs.list os =>
        match return_value.pyLen with
        | some len =>
            if len = os.length then Except.ok return_value
            else Except.error (PyError.valueErrorLenMismatch len os.length)
        | Option.none => Except.error PyError.valueErrorNotCollection
    | _ => Except.ok return_value

/-- Modelled from the spec: the `protected` decorator of
`dash_auth.group_protection` is an external package absent from src/.  Per the
spec §2 control flow the adapter asks the Access Decision Guard for a verdict;
on ALLOWED it executes the wrapped function, on UNAUTHENTICATED or FORBIDDEN it
returns the corresponding configured denial output without calling the
function (the repository passes plain output values at this call site). -/
def protectedDispatch (session : Session) (req : Requirement)
    (unauthenticated_output missing_permissions_output : PyVal)
    (func : Unit → Except PyError PyVal) : Except PyError PyVal :=
  match decide session req with
  | Verdict.allowed => func ()
  | Verdict.unauthenticated => Except.ok unauthenticated_output
  | Verdict.forbidden => Except.ok missing_permissions_output

/-- The value `callback_wrapper` returns: the constant internal
`action_finished` slot and the `"external"` entry, present only when `build`
registered external outputs. -/
structure WrapperResult where
  action_finished : PyVal
  external : Option PyVal

/-- The locals `unauthenticated_output, missing_permissions_output` that
`callback_wrapper` synthesizes from `(no_update,) * self._n_outputs` plus the
configured flags (both stay `None` when the matching modal is unconfigured). -/
def denialOutputs (st : PAState) (n : Nat) : PyVal × PyVal :=
  let unallowed_output : List PyVal := List.replicate n PyVal.noUpdate
  if st.unauthenticated_modal_id.isSome && st.missing_permission_modal_id.isSome then
    (PyVal.tuple (unallowed_output ++ [PyVal.bool true, PyVal.bool false]),
     PyVal.tuple (unallowed_output ++ [PyVal.bool false, PyVal.bool true]))
  else if st.unauthenticated_modal_id.isSome then
    (PyVal.tuple (unallowed_output ++ [PyVal.bool true]), PyVal.none)
  else if st.missing_permission_modal_id.isSome then
    (PyVal.none, PyVal.tuple (unallowed_output ++ [PyVal.bool true]))
  else (PyVal.none, PyVal.none)

/-- `callback_wrapper` inside `ProtectedAction.build`: synthesize the denial
outputs, run the `protected`-wrapped `_action_callback_function`, and wrap its
result.  Reading `self._n_outputs` before `_transformed_outputs` has run raises
`AttributeError`. -/
def callbackWrapper (st : PAState) (couts : CallbackOutputs) (session : Session)
    (function : PyVal → PyVal) (external : PyVal) : Except PyError WrapperResult :=
  match st.n_outputs with
  | Option.none => Except.error (PyError.attributeError "_n_outputs")
  | some n =>
    let outPair : PyVal × PyVal := denialOutputs st n
    do
      let return_value ← protectedDispatch session (requirementOf st) outPair.fst outPair.snd
        (fun _ => actionCallbackFunction st function external couts)
      match couts with
      | CallbackOutputs.none' => Except.ok ⟨PyVal.none, Option.none⟩
      | _ => Except.ok ⟨PyVal.none, some return_value⟩

/-- The setup phase of `ProtectedAction.build`: evaluate `_transformed_outputs`
once and register the external callback outputs only when truthy. -/
def buildSetup (st : PAState) : Except PyError (PAState × CallbackOutputs) := do
  let r ← transformedOutputs st
  Except.ok (r.fst, toCallbackOutputs r.snd)

/-- A `set_props(component, {prop: value})` side effect. -/
structure SetProp where
  componentId : String
  prop : String
  value : Bool
deriving DecidableEq, Repr

/-- `ProtectedAction._action_callback_function` of `dashboards/protected.py`:
wraps the parent implementation with `protected`, whose denial outputs here are
callables that `set_props` the fixed modal open and return
`(no_update,) * len(self.outputs)` (the `protected` selection semantics is
modelled from the spec: on denial the configured callable runs in place of the
wrapped function). -/
def actionCallbackFunctionSetProps (n_outputs : Nat) (session : Session) (req : Requirement)
    (superCall : Unit → Except PyError PyVal) : Except PyError (PyVal × List SetProp) :=
  match decide session req with
  | Verdict.allowed => (superCall ()).map (fun v => (v, []))
  | Verdict.unauthenticated =>
      Except.ok (PyVal.tuple (List.replicate n_outputs PyVal.noUpdate),
        [⟨"unauthenticated-modal", "is_open", true⟩])
  | Verdict.forbidden =>
      Except.ok (PyVal.tuple (List.replicate n_outputs PyVal.noUpdate),
        [⟨"missing-permission-modal", "is_open", true⟩])

/-- The number of configured denial modals (0, 1 or 2). -/
def modalCount (st : PAState) : Nat :=
  (if st.unauthenticated_modal_id.isSome then 1 else 0) +
  (if st.missing_permission_modal_id.isSome then 1 else 0)

/-- The external dispatch result has exactly the arity of the registered
callback outputs: absent for no outputs, any single value for a bare `Output`,
a collection of matching length for an `Output` list, and a mapping with the
declared keys for an `Output` dict. -/
def externalArityOk : CallbackOutputs → Option PyVal → Prop
  | CallbackOutputs.none', ext => ext = Option.none
  | CallbackOutputs.single _, ext => ∃ v, ext = some v
  | CallbackOutputs.list os, ext => ∃ v, ext = some v ∧ v.pyLen = some os.length
  | CallbackOutputs.dict kvs, ext =>
      ∃ v, ext = some v ∧ keySetEq v.keys (kvs.map Prod.fst) = true

/- Concrete fixtures used to instantiate the theorems below. -/

/-- An unauthenticated session. -/
def anonSession : Session := ⟨false, []⟩

/-- An authenticated session whose `roles` contain `Admin`. -/
def adminSession : Session := ⟨true, [("roles", GroupsField.asList ["Admin"])]⟩

/-- An authenticated session whose `roles` contain only `Viewer`. -/
def viewerSession : Session := ⟨true, [("roles", GroupsField.asList ["Viewer"])]⟩

/-- An action with one declared output and only the missing-permission modal. -/
def actMissingOnly : PAState :=
  ⟨OutputsDecl.list ["chart.figure"], some ["Admin"], "roles", Option.none, CheckType.one_of,
   Option.none, some "missing-permission-modal", Option.none⟩

/-- `actMissingOnly` after `build` evaluated `_transformed_outputs` once. -/
def actMissingOnlyBuilt : PAState :=
  { actMissingOnly with
    outputs := OutputsDecl.list ["chart.figure", "missing-permission-modal.is_open"],
    n_outputs := some 1 }

/-- The callback outputs registered for `actMissingOnly`. -/
def coutsMissingOnly : CallbackOutputs :=
  CallbackOutputs.list
    [transformOutput "chart.figure", transformOutput "missing-permission-modal.is_open"]

/-- An action with one declared output and only the unauthenticated modal,
after `build` evaluated `_transformed_outputs` once. -/
def actUnauthOnlyBuilt : PAState :=
  ⟨OutputsDecl.list ["chart.figure", "unauthenticated-modal.is_open"], some ["Admin"], "roles",
   Option.none, CheckType.one_of, some "unauthenticated-modal", Option.none, some 1⟩

/-- The callback outputs registered for the unauthenticated-only action. -/
def coutsUnauthOnly : CallbackOutputs :=
  CallbackOutputs.list
    [transformOutput "chart.figure", transformOutput "unauthenticated-modal.is_open"]

/-- An action with two declared outputs and no denial modal, after `build`
evaluated `_transformed_outputs` once. -/
def actNoModalsBuilt : PAState :=
  ⟨OutputsDecl.list ["a.b", "c.d"], some ["Admin"], "roles", Option.none, CheckType.one_of,
   Option.none, Option.none, some 2⟩

/-- The callback outputs registered for the modal-free action. -/
def coutsNoModals : CallbackOutputs :=
  CallbackOutputs.list [transformOutput "a.b", transformOutput "c.d"]

/-- An action with one declared output and both modals, after `build`
evaluated `_transformed_outputs` once. -/
def actBothModalsBuilt : PAState :=
  ⟨OutputsDecl.list
      ["chart.figure", "unauthenticated-modal.is_open", "missing-permission-modal.is_open"],
   some ["Admin"], "roles", Option.none, CheckType.one_of,
   some "unauthenticated-modal", some "missing-permission-modal", some 1⟩

/-- The callback outputs registered for the both-modals action. -/
def coutsBothModals : CallbackOutputs :=
  CallbackOutputs.list
    [transformOutput "chart.figure", transformOutput "unauthenticated-modal.is_open",
     transformOutput "missing-permission-modal.is_open"]

/-- An action with a single declared output and no denial modal. -/
def actSingleNoModals : PAState :=
  ⟨OutputsDecl.list ["chart.figure"], some ["Admin"], "roles", Option.none, CheckType.one_of,
   Option.none, Option.none, Option.none⟩

end KVL

namespace KVL

/-! ## Helper lemmas -/

/-- The list branch of `_transformed_outputs`, characterized. -/
theorem transformedOutputs_list (st : PAState) (xs : List String)
    (h : st.outputs = OutputsDecl.list xs) :
    transformedOutputs st =
      Except.ok
        ({ st with
            outputs := OutputsDecl.list (xs ++ denialSlotStrings st),
            n_outputs := some xs.length },
         collapseSingle ((xs ++ denialSlotStrings st).map transformOutput)) := by
  obtain ⟨o, g, gk, gs, ct, u, m, no⟩ := st
  change o = OutputsDecl.list xs at h
  subst h
  rfl

/-- The denial-slot strings are one per configured modal id. -/
theorem denialSlotStrings_length (st : PAState) :
    (denialSlotStrings st).length = modalCount st := by
  obtain ⟨o, g, gk, gs, ct, u, m, no⟩ := st
  cases u <;> cases m <;> rfl

/-- Binding an `Except.error` short-circuits. -/
theorem error_bind {α β : Type} (e : PyError) (k : α → Except PyError β) :
    (Except.error e >>= k) = Except.error e := rfl

/-- Binding an `Except.ok` applies the continuation. -/
theorem ok_bind {α β : Type} (a : α) (k : α → Except PyError β) :
    (Except.ok a >>= k) = k a := rfl

/-- `collapseSingle` leaves every list of length other than one intact. -/
theorem collapseSingle_of_length_ne_one (os : List DashOutput) (h : os.length ≠ 1) :
    collapseSingle os = TransformedOutputs.list os := by
  cases os with
  | nil => rfl
  | cons a t =>
    cases t with
    | nil => exact absurd rfl h
    | cons b t2 => rfl

/-! ## Claims -/

/-- C5: for every session with `authenticated = false`, the Access Decision
Guard returns `UNAUTHENTICATED` regardless of required groups, check mode or
the group membership of the session. -/
theorem C5_guard_unauthenticated (s : Session) (req : Requirement)
    (h : s.authenticated = false) : decide s req = Verdict.unauthenticated := by
  simp [KVL.decide, h]

/-- Witness for C5 at a concrete unauthenticated session and a nontrivial
requirement. -/
theorem C5_guard_unauthenticated_witness :
    anonSession.authenticated = false ∧
    decide anonSession ⟨["Admin"], "roles", Option.none, CheckType.one_of⟩ =
      Verdict.unauthenticated :=
  ⟨rfl,
   C5_guard_unauthenticated anonSession ⟨["Admin"], "roles", Option.none, CheckType.one_of⟩ rfl⟩

/-- C8: `_transformed_outputs` appends the configured denial-slot references to
the `self.outputs` of the action itself in place rather than to a copy: one evaluation
leaves `self.outputs` equal to the declared outputs followed by one
`<modal_id>.is_open` slot per configured modal and records `_n_outputs` as the
declared count; a second evaluation appends the denial slots again and records
`_n_outputs` as the already-extended length. -/
theorem C8_outputs_mutated_in_place (st : PAState) (xs : List String)
    (h : st.outputs = OutputsDecl.list xs) :
    ∃ st1 t1 st2 t2,
      transformedOutputs st = Except.ok (st1, t1) ∧
      st1.outputs = OutputsDecl.list (xs ++ denialSlotStrings st) ∧
      st1.outputs.len = xs.length + modalCount st ∧
      st1.n_outputs = some xs.length ∧
      transformedOutputs st1 = Except.ok (st2, t2) ∧
      st2.outputs.len = xs.length + 2 * modalCount st ∧
      st2.n_outputs = some (xs.length + modalCount st) := by
  have h1 := transformedOutputs_list st xs h
  refine ⟨_, _, _, _, h1, rfl, ?_, rfl,
    transformedOutputs_list _ (xs ++ denialSlotStrings st) rfl, ?_, ?_⟩
  · simp [OutputsDecl.len, denialSlotStrings_length]
  · show (OutputsDecl.list ((xs ++ denialSlotStrings st) ++ denialSlotStrings st)).len =
      xs.length + 2 * modalCount st
    simp [OutputsDecl.len, denialSlotStrings_length st]
    omega
  · show some (xs ++ denialSlotStrings st).length = some (xs.length + modalCount st)
    simp [denialSlotStrings_length st]

/-- Witness for C8 at the missing-permission-only action with one declared
output. -/
theorem C8_outputs_mutated_in_place_witness :
    actMissingOnly.outputs = OutputsDecl.list ["chart.figure"] ∧
    (∃ st1 t1 st2 t2,
      transformedOutputs actMissingOnly = Except.ok (st1, t1) ∧
      st1.outputs = OutputsDecl.list (["chart.figure"] ++ denialSlotStrings actMissingOnly) ∧
      st1.outputs.len = ["chart.figure"].length + modalCount actMissingOnly ∧
      st1.n_outputs = some ["chart.figure"].length ∧
      transformedOutputs st1 = Except.ok (st2, t2) ∧
      st2.outputs.len = ["chart.figure"].length + 2 * modalCount actMissingOnly ∧
      st2.n_outputs = some (["chart.figure"].length + modalCount actMissingOnly)) :=
  ⟨rfl, C8_outputs_mutated_in_place actMissingOnly ["chart.figure"] rfl⟩

/-- C9: when outputs are declared as a list and the final output list (declared
outputs plus configured denial slots) has exactly one element,
`_transformed_outputs` returns the single `Output` object bare rather than as a
one-element list; for every other arity it returns the list of `Output` objects
in declaration order with the denial slots last. -/
theorem C9_single_output_bare (st : PAState) (xs : List String)
    (h : st.outputs = OutputsDecl.list xs) :
    (∀ o, xs ++ denialSlotStrings st = [o] →
      (transformedOutputs st).map Prod.snd =
        Except.ok (TransformedOutputs.single (transformOutput o))) ∧
    ((xs ++ denialSlotStrings st).length ≠ 1 →
      (transformedOutputs st).map Prod.snd =
        Except.ok (TransformedOutputs.list ((xs ++ denialSlotStrings st).map transformOutput))) := by
  have h1 := transformedOutputs_list st xs h
  constructor
  · intro o ho
    rw [h1, ho]
    rfl
  · intro hlen
    rw [h1]
    have hc : collapseSingle ((xs ++ denialSlotStrings st).map transformOutput) =
        TransformedOutputs.list ((xs ++ denialSlotStrings st).map transformOutput) := by
      apply collapseSingle_of_length_ne_one
      simpa using hlen
    rw [hc]
    rfl

/-- Witness for C9 at a single-output action with no denial modal. -/
theorem C9_single_output_bare_witness :
    actSingleNoModals.outputs = OutputsDecl.list ["chart.figure"] ∧
    ["chart.figure"] ++ denialSlotStrings actSingleNoModals = ["chart.figure"] ∧
    (transformedOutputs actSingleNoModals).map Prod.snd =
      Except.ok (TransformedOutputs.single (transformOutput "chart.figure")) :=
  ⟨rfl, rfl,
   (C9_single_output_bare actSingleNoModals ["chart.figure"] rfl).1 "chart.figure" rfl⟩


/-- C10: on the ALLOWED path with at least one denial slot configured, the
flag-appending step wraps a non-Collection return value in a fresh one-element
list and calls `.extend` on the result, so every Collection return value
without an `extend` method (a tuple, a string, or a mapping) raises
`AttributeError` instead of one of the descriptive configuration errors; the
step completes only for list return values or non-Collection scalars. -/
theorem C10_extend_attribute_error (st : PAState) (function : PyVal → PyVal) (inputs : PyVal)
    (outputs : CallbackOutputs)
    (hslot : st.unauthenticated_modal_id.isSome = true ∨
      st.missing_permission_modal_id.isSome = true) :
    ((function inputs).isCollection = true → (∀ xs, function inputs ≠ PyVal.list xs) →
      actionCallbackFunction st function inputs outputs =
        Except.error (PyError.attributeError "extend")) ∧
    (∀ v, actionCallbackFunction st function inputs outputs = Except.ok v →
      (∃ xs, function inputs = PyVal.list xs) ∨ (function inputs).isCollection = false) := by
  have hext : ∀ flags, (function inputs).isCollection = true →
      (∀ xs, function inputs ≠ PyVal.list xs) →
      extendWithFlags (function inputs) flags = Except.error (PyError.attributeError "extend") := by
    intro flags hc hnl
    cases hrv : function inputs <;> simp_all [extendWithFlags, PyVal.isCollection]
  have key : (function inputs).isCollection = true → (∀ xs, function inputs ≠ PyVal.list xs) →
      actionCallbackFunction st function inputs outputs =
        Except.error (PyError.attributeError "extend") := by
    intro hc hnl
    cases hu : st.unauthenticated_modal_id with
    | none =>
      cases hm : st.missing_permission_modal_id with
      | none => simp [hu, hm] at hslot
      | some b => simp [actionCallbackFunction, hu, hm, hext _ hc hnl, error_bind]
    | some a =>
      cases hm : st.missing_permission_modal_id with
      | none => simp [actionCallbackFunction, hu, hm, hext _ hc hnl, error_bind]
      | some b => simp [actionCallbackFunction, hu, hm, hext _ hc hnl, error_bind]
  refine ⟨key, ?_⟩
  intro v hv
  by_cases hl : ∃ xs, function inputs = PyVal.list xs
  · exact Or.inl hl
  · right
    by_contra hc
    rw [Bool.not_eq_false] at hc
    have hk := key hc (fun xs hxs => hl ⟨xs, hxs⟩)
    rw [hk] at hv
    cases hv

/-- Witness for C10: a tuple return value with the unauthenticated slot
configured raises `AttributeError` from the `.extend` call. -/
theorem C10_extend_attribute_error_witness :
    (PyVal.tuple []).isCollection = true ∧
    actionCallbackFunction actUnauthOnlyBuilt (fun _ => PyVal.tuple []) PyVal.none coutsUnauthOnly =
      Except.error (PyError.attributeError "extend") :=
  ⟨rfl, (C10_extend_attribute_error actUnauthOnlyBuilt (fun _ => PyVal.tuple []) PyVal.none
      coutsUnauthOnly (Or.inl rfl)).1 rfl (fun _ h => nomatch h)⟩

/-- C7: on the ALLOWED path with outputs declared as a mapping (reachable only
with no denial modal configured, since `_transformed_outputs` raises on dicts
otherwise), a configuration error is raised if and only if the return value is
not a mapping or its key set differs from the declared output keys; the
key-mismatch error names the returned and the declared key sets. -/
theorem C7_mapping_key_check (st : PAState) (function : PyVal → PyVal) (inputs : PyVal)
    (kvs : List (String × DashOutput))
    (hu : st.unauthenticated_modal_id = Option.none)
    (hm : st.missing_permission_modal_id = Option.none)
    (hne : kvs ≠ []) :
    ((∃ e, actionCallbackFunction st function inputs (CallbackOutputs.dict kvs) =
        Except.error e) ↔
      ((function inputs).isMapping = false ∨
        keySetEq (function inputs).keys (kvs.map Prod.fst) = false)) ∧
    ((function inputs).isMapping = true →
      keySetEq (function inputs).keys (kvs.map Prod.fst) = false →
      actionCallbackFunction st function inputs (CallbackOutputs.dict kvs) =
        Except.error (PyError.valueErrorKeyMismatch (function inputs).keys (kvs.map Prod.fst))) ∧
    ((function inputs).isMapping = true →
      keySetEq (function inputs).keys (kvs.map Prod.fst) = true →
      actionCallbackFunction st function inputs (CallbackOutputs.dict kvs) =
        Except.ok (function inputs)) := by
  have hfalsy : (CallbackOutputs.dict kvs).falsy = false := by
    cases kvs with
    | nil => exact absurd rfl hne
    | cons p t => rfl
  cases hrv : function inputs <;>
    simp_all [actionCallbackFunction, hu, hm, PyVal.isMapping, PyVal.keys, Except.bind]
  all_goals ((try split) <;> simp_all)

/-- Witness for C7: declared mapping keys `{a, b}` with returned keys `{a}`
raise the configuration error naming `{a}` and `{a, b}`. -/
theorem C7_mapping_key_check_witness :
    keySetEq ["a"] ["a", "b"] = false ∧
    actionCallbackFunction actNoModalsBuilt (fun _ => PyVal.dict [("a", PyVal.num 1)]) PyVal.none
      (CallbackOutputs.dict [("a", transformOutput "c1.p"), ("b", transformOutput "c2.p")]) =
      Except.error (PyError.valueErrorKeyMismatch ["a"] ["a", "b"]) :=
  ⟨rfl, (C7_mapping_key_check actNoModalsBuilt (fun _ => PyVal.dict [("a", PyVal.num 1)])
      PyVal.none [("a", transformOutput "c1.p"), ("b", transformOutput "c2.p")] rfl rfl
      (fun hc => nomatch hc)).2.1 rfl rfl⟩


/-- C4: for every invocation whose verdict is UNAUTHENTICATED or FORBIDDEN the
wrapped action function is never invoked: the dispatch result is independent of
the wrapped function, both for `callback_wrapper` in `protected_action.py` and
for the `set_props` adapter in `protected.py`. -/
theorem C4_denied_never_calls_function (st : PAState) (couts : CallbackOutputs)
    (session : Session) (f g : PyVal → PyVal) (external : PyVal) (n : Nat)
    (sf sg : Unit → Except PyError PyVal)
    (h : decide session (requirementOf st) = Verdict.unauthenticated ∨
      decide session (requirementOf st) = Verdict.forbidden) :
    callbackWrapper st couts session f external = callbackWrapper st couts session g external ∧
    actionCallbackFunctionSetProps n session (requirementOf st) sf =
      actionCallbackFunctionSetProps n session (requirementOf st) sg := by
  cases hn : st.n_outputs with
  | none =>
    rcases h with h | h <;>
      simp [callbackWrapper, denialOutputs, protectedDispatch, actionCallbackFunctionSetProps, hn, h]
  | some n =>
    rcases h with h | h <;>
      simp [callbackWrapper, denialOutputs, protectedDispatch, actionCallbackFunctionSetProps, hn, h]

/-- Witness for C4 at an unauthenticated caller of the missing-permission-only
action: two different wrapped functions give identical dispatch results. -/
theorem C4_denied_never_calls_function_witness :
    decide anonSession (requirementOf actMissingOnlyBuilt) = Verdict.unauthenticated ∧
    (callbackWrapper actMissingOnlyBuilt coutsMissingOnly anonSession (fun _ => PyVal.num 1)
        (PyVal.list []) =
      callbackWrapper actMissingOnlyBuilt coutsMissingOnly anonSession (fun _ => PyVal.num 2)
        (PyVal.list [])) ∧
    actionCallbackFunctionSetProps 1 anonSession (requirementOf actMissingOnlyBuilt)
        (fun _ => Except.ok (PyVal.num 1)) =
      actionCallbackFunctionSetProps 1 anonSession (requirementOf actMissingOnlyBuilt)
        (fun _ => Except.ok (PyVal.num 2)) :=
  ⟨rfl, C4_denied_never_calls_function actMissingOnlyBuilt coutsMissingOnly anonSession
    (fun _ => PyVal.num 1) (fun _ => PyVal.num 2) (PyVal.list []) 1
    (fun _ => Except.ok (PyVal.num 1)) (fun _ => Except.ok (PyVal.num 2)) (Or.inl rfl)⟩

/-- C3 fails as stated: with two declared outputs, no denial modal configured
and an unauthenticated caller, dispatch returns the unconfigured denial output
`None` as the external result, not two `no_update` placeholder markers. -/
theorem C3_counterexample :
    decide anonSession (requirementOf actNoModalsBuilt) = Verdict.unauthenticated ∧
    callbackWrapper actNoModalsBuilt coutsNoModals anonSession (fun _ => PyVal.num 1)
        (PyVal.list []) =
      Except.ok ⟨PyVal.none, some PyVal.none⟩ ∧
    PyVal.none ≠ PyVal.tuple (List.replicate 2 PyVal.noUpdate) :=
  ⟨rfl, rfl, fun h => nomatch h⟩

/-- C3 (amended): with neither denial modal configured and a non-ALLOWED
verdict, dispatch raises no error and never invokes the action function
(the result below is the same for every `f`), but the external result is the
unconfigured denial output `None` rather than `n_outputs` placeholder
markers. -/
theorem C3_silent_denial_returns_none (st : PAState) (couts : CallbackOutputs)
    (session : Session) (f : PyVal → PyVal) (external : PyVal) (n : Nat)
    (hu : st.unauthenticated_modal_id = Option.none)
    (hm : st.missing_permission_modal_id = Option.none)
    (hn : st.n_outputs = some n)
    (hv : decide session (requirementOf st) ≠ Verdict.allowed)
    (hc : couts ≠ CallbackOutputs.none') :
    callbackWrapper st couts session f external =
      Except.ok ⟨PyVal.none, some PyVal.none⟩ := by
  cases hd : decide session (requirementOf st) with
  | allowed => exact absurd hd hv
  | unauthenticated =>
    cases couts <;> simp_all [callbackWrapper, denialOutputs, protectedDispatch, ok_bind]
  | forbidden =>
    cases couts <;> simp_all [callbackWrapper, denialOutputs, protectedDispatch, ok_bind]

/-- Witness for C3 (amended) at a forbidden caller of the modal-free action. -/
theorem C3_silent_denial_returns_none_witness :
    actNoModalsBuilt.unauthenticated_modal_id = Option.none ∧
    actNoModalsBuilt.missing_permission_modal_id = Option.none ∧
    decide viewerSession (requirementOf actNoModalsBuilt) ≠ Verdict.allowed ∧
    callbackWrapper actNoModalsBuilt coutsNoModals viewerSession (fun _ => PyVal.num 1)
        (PyVal.list []) = Except.ok ⟨PyVal.none, some PyVal.none⟩ :=
  ⟨rfl, rfl, by decide,
   C3_silent_denial_returns_none actNoModalsBuilt coutsNoModals viewerSession
     (fun _ => PyVal.num 1) (PyVal.list []) 2 rfl rfl rfl (by decide) (by decide)⟩

/-- C2 fails as stated: an unauthenticated caller of the
missing-permission-only action gets external result `None`, not one `no_update`
marker followed by `False`; symmetrically a forbidden caller of the
unauthenticated-only action also gets `None`. -/
theorem C2_counterexample :
    decide anonSession (requirementOf actMissingOnlyBuilt) = Verdict.unauthenticated ∧
    callbackWrapper actMissingOnlyBuilt coutsMissingOnly anonSession (fun _ => PyVal.num 1)
        (PyVal.list []) = Except.ok ⟨PyVal.none, some PyVal.none⟩ ∧
    PyVal.none ≠ PyVal.tuple [PyVal.noUpdate, PyVal.bool false] ∧
    decide viewerSession (requirementOf actUnauthOnlyBuilt) = Verdict.forbidden ∧
    callbackWrapper actUnauthOnlyBuilt coutsUnauthOnly viewerSession (fun _ => PyVal.num 1)
        (PyVal.list []) = Except.ok ⟨PyVal.none, some PyVal.none⟩ :=
  And.intro rfl (And.intro rfl (And.intro (fun h => nomatch h) (And.intro rfl rfl)))

/-- C2 (amended): in the cross-configured denied cases the output synthesized
for the actual verdict is the unconfigured one, so dispatch returns `None`:
UNAUTHENTICATED with only the missing-permission slot configured, and FORBIDDEN
with only the unauthenticated slot configured, both yield the external result
`None` instead of `n_outputs` markers followed by `False`. -/
theorem C2_cross_configured_denial_returns_none (st : PAState) (couts : CallbackOutputs)
    (session : Session) (f : PyVal → PyVal) (external : PyVal) (n : Nat)
    (hn : st.n_outputs = some n) (hc : couts ≠ CallbackOutputs.none') :
    (st.unauthenticated_modal_id = Option.none →
      st.missing_permission_modal_id.isSome = true →
      decide session (requirementOf st) = Verdict.unauthenticated →
      callbackWrapper st couts session f external = Except.ok ⟨PyVal.none, some PyVal.none⟩) ∧
    (st.unauthenticated_modal_id.isSome = true →
      st.missing_permission_modal_id = Option.none →
      decide session (requirementOf st) = Verdict.forbidden →
      callbackWrapper st couts session f external = Except.ok ⟨PyVal.none, some PyVal.none⟩) := by
  constructor
  · intro hu hm hd
    cases couts <;> simp_all [callbackWrapper, denialOutputs, protectedDispatch, ok_bind]
  · intro hu hm hd
    cases couts <;> simp_all [callbackWrapper, denialOutputs, protectedDispatch, ok_bind]

/-- Witness for C2 (amended): the forbidden cross case at the
unauthenticated-only action. -/
theorem C2_cross_configured_denial_returns_none_witness :
    actUnauthOnlyBuilt.missing_permission_modal_id = Option.none ∧
    decide viewerSession (requirementOf actUnauthOnlyBuilt) = Verdict.forbidden ∧
    callbackWrapper actUnauthOnlyBuilt coutsUnauthOnly viewerSession (fun _ => PyVal.num 3)
        PyVal.none = Except.ok ⟨PyVal.none, some PyVal.none⟩ :=
  ⟨rfl, rfl,
   (C2_cross_configured_denial_returns_none actUnauthOnlyBuilt coutsUnauthOnly viewerSession
      (fun _ => PyVal.num 3) PyVal.none 1 rfl (by decide)).2 rfl rfl rfl⟩


/-- C6 fails as stated: with the unauthenticated slot configured and one
declared output, a scalar (not list-like) return value is wrapped together with
the cleared denial flag, matches the extended arity, and passes with no error
instead of raising a descriptive error. -/
theorem C6_counterexample :
    (PyVal.num 5).isCollection = false ∧
    actionCallbackFunction actUnauthOnlyBuilt (fun _ => PyVal.num 5) PyVal.none coutsUnauthOnly =
      Except.ok (PyVal.list [PyVal.num 5, PyVal.bool false]) :=
  ⟨rfl, rfl⟩

/-- C6 (amended): on the ALLOWED path with outputs declared as a list, a list
return value is flag-extended and passes iff its extended length matches the
extended output count, with the mismatch error naming the two extended lengths;
a non-list-like return value raises the descriptive not-list-like error only
when no denial slot is configured, while with configured slots it is wrapped in
a one-element list, passing or failing the same length check; valid values are
returned unmodified apart from the appended flags. -/
theorem C6_list_length_check (st : PAState) (function : PyVal → PyVal) (inputs : PyVal)
    (os : List DashOutput) (hne : os ≠ []) :
    (∀ xs, function inputs = PyVal.list xs →
      (xs.length + modalCount st = os.length →
        actionCallbackFunction st function inputs (CallbackOutputs.list os) =
          Except.ok (PyVal.list (xs ++ List.replicate (modalCount st) (PyVal.bool false)))) ∧
      (xs.length + modalCount st ≠ os.length →
        actionCallbackFunction st function inputs (CallbackOutputs.list os) =
          Except.error (PyError.valueErrorLenMismatch (xs.length + modalCount st) os.length))) ∧
    ((function inputs).isCollection = false →
      (modalCount st = 0 →
        actionCallbackFunction st function inputs (CallbackOutputs.list os) =
          Except.error PyError.valueErrorNotCollection) ∧
      (1 ≤ modalCount st →
        (1 + modalCount st = os.length →
          actionCallbackFunction st function inputs (CallbackOutputs.list os) =
            Except.ok (PyVal.list (function inputs ::
              List.replicate (modalCount st) (PyVal.bool false)))) ∧
        (1 + modalCount st ≠ os.length →
          actionCallbackFunction st function inputs (CallbackOutputs.list os) =
            Except.error (PyError.valueErrorLenMismatch (1 + modalCount st) os.length)))) := by
  have hfalsy : (CallbackOutputs.list os).falsy = false := by
    cases os with
    | nil => exact absurd rfl hne
    | cons o t => rfl
  constructor
  · intro xs hxs
    cases hu : st.unauthenticated_modal_id <;> cases hm : st.missing_permission_modal_id <;>
      constructor <;> intro hlen <;>
      simp_all [actionCallbackFunction, extendWithFlags, modalCount, PyVal.pyLen,
        ok_bind, error_bind]
  · intro hcol
    cases hu : st.unauthenticated_modal_id <;> cases hm : st.missing_permission_modal_id <;>
      cases hrv : function inputs <;>
      simp_all [actionCallbackFunction, extendWithFlags, modalCount, PyVal.isCollection,
        PyVal.pyLen, ok_bind, error_bind]

/-- Witness for C6 (amended): at the both-modals action a one-element list
return value passes flag-extended, and a two-element one raises the error
naming the extended lengths 4 and 3. -/
theorem C6_list_length_check_witness :
    actionCallbackFunction actBothModalsBuilt (fun _ => PyVal.list [PyVal.num 7]) PyVal.none
      coutsBothModals =
      Except.ok (PyVal.list [PyVal.num 7, PyVal.bool false, PyVal.bool false]) ∧
    actionCallbackFunction actBothModalsBuilt (fun _ => PyVal.list [PyVal.num 7, PyVal.num 8])
      PyVal.none coutsBothModals =
      Except.error (PyError.valueErrorLenMismatch 4 3) :=
  ⟨((C6_list_length_check actBothModalsBuilt (fun _ => PyVal.list [PyVal.num 7]) PyVal.none
      [transformOutput "chart.figure", transformOutput "unauthenticated-modal.is_open",
       transformOutput "missing-permission-modal.is_open"] (by decide)).1
      [PyVal.num 7] rfl).1 rfl,
   ((C6_list_length_check actBothModalsBuilt (fun _ => PyVal.list [PyVal.num 7, PyVal.num 8])
      PyVal.none
      [transformOutput "chart.figure", transformOutput "unauthenticated-modal.is_open",
       transformOutput "missing-permission-modal.is_open"] (by decide)).1
      [PyVal.num 7, PyVal.num 8] rfl).2 (by decide)⟩


/-- The slot count registered by `build` equals the extended output count. -/
theorem slotCount_toCallbackOutputs_collapse (L : List DashOutput) :
    (toCallbackOutputs (collapseSingle L)).slotCount = L.length := by
  rcases L with _ | ⟨a, _ | ⟨b, t⟩⟩ <;> rfl

/-- A nonempty extended output list registers a truthy external output. -/
theorem toCallbackOutputs_collapse_ne (L : List DashOutput) (h : L ≠ []) :
    toCallbackOutputs (collapseSingle L) ≠ CallbackOutputs.none' := by
  rcases L with _ | ⟨a, _ | ⟨b, t⟩⟩ <;>
    simp_all [toCallbackOutputs, collapseSingle, TransformedOutputs.truthy]

/-- `callback_wrapper` on the ALLOWED path runs `_action_callback_function`
and wraps its value. -/
theorem callbackWrapper_allowed (st : PAState) (couts : CallbackOutputs) (session : Session)
    (f : PyVal → PyVal) (external : PyVal) (n : Nat)
    (hn : st.n_outputs = some n)
    (hd : decide session (requirementOf st) = Verdict.allowed) :
    callbackWrapper st couts session f external =
      (actionCallbackFunction st f external couts).map
        (fun v => ⟨PyVal.none,
          if couts = CallbackOutputs.none' then Option.none else some v⟩) := by
  cases couts <;>
    cases hacf : actionCallbackFunction st f external _ <;>
    simp_all [callbackWrapper, protectedDispatch, ok_bind, error_bind, Except.map]

/-- `callback_wrapper` on the UNAUTHENTICATED path returns the synthesized
unauthenticated output. -/
theorem callbackWrapper_unauthenticated_eq (st : PAState) (couts : CallbackOutputs)
    (session : Session) (f : PyVal → PyVal) (external : PyVal) (n : Nat)
    (hn : st.n_outputs = some n)
    (hd : decide session (requirementOf st) = Verdict.unauthenticated) :
    callbackWrapper st couts session f external =
      Except.ok ⟨PyVal.none,
        if couts = CallbackOutputs.none' then Option.none
        else some (denialOutputs st n).fst⟩ := by
  cases couts <;> simp_all [callbackWrapper, protectedDispatch, ok_bind]

/-- `callback_wrapper` on the FORBIDDEN path returns the synthesized
missing-permissions output. -/
theorem callbackWrapper_forbidden_eq (st : PAState) (couts : CallbackOutputs)
    (session : Session) (f : PyVal → PyVal) (external : PyVal) (n : Nat)
    (hn : st.n_outputs = some n)
    (hd : decide session (requirementOf st) = Verdict.forbidden) :
    callbackWrapper st couts session f external =
      Except.ok ⟨PyVal.none,
        if couts = CallbackOutputs.none' then Option.none
        else some (denialOutputs st n).snd⟩ := by
  cases couts <;> simp_all [callbackWrapper, protectedDispatch, ok_bind]

/-- With the unauthenticated modal configured, the synthesized unauthenticated
output is a tuple of `n` markers plus the flags. -/
theorem denialOutputs_fst_of_unauth (st : PAState) (n : Nat) (a : String)
    (ha : st.unauthenticated_modal_id = some a) :
    ∃ t, (denialOutputs st n).fst = PyVal.tuple t ∧ t.length = n + modalCount st := by
  cases hm : st.missing_permission_modal_id with
  | none =>
    refine ⟨List.replicate n PyVal.noUpdate ++ [PyVal.bool true], ?_, ?_⟩
    · simp [denialOutputs, ha, hm]
    · simp [modalCount, ha, hm]
  | some b =>
    refine ⟨List.replicate n PyVal.noUpdate ++ [PyVal.bool true, PyVal.bool false], ?_, ?_⟩
    · simp [denialOutputs, ha, hm]
    · simp [modalCount, ha, hm]

/-- With the missing-permission modal configured, the synthesized forbidden
output is a tuple of `n` markers plus the flags. -/
theorem denialOutputs_snd_of_missing (st : PAState) (n : Nat) (b : String)
    (hb : st.missing_permission_modal_id = some b) :
    ∃ t, (denialOutputs st n).snd = PyVal.tuple t ∧ t.length = n + modalCount st := by
  cases hu : st.unauthenticated_modal_id with
  | none =>
    refine ⟨List.replicate n PyVal.noUpdate ++ [PyVal.bool true], ?_, ?_⟩
    · simp [denialOutputs, hu, hb]
    · simp [modalCount, hu, hb]
  | some a =>
    refine ⟨List.replicate n PyVal.noUpdate ++ [PyVal.bool false, PyVal.bool true], ?_, ?_⟩
    · simp [denialOutputs, hu, hb]
    · simp [modalCount, hu, hb]

/-- Without the unauthenticated modal, the synthesized unauthenticated output
stays `None`. -/
theorem denialOutputs_fst_of_none (st : PAState) (n : Nat)
    (hu : st.unauthenticated_modal_id = Option.none) :
    (denialOutputs st n).fst = PyVal.none := by
  cases hm : st.missing_permission_modal_id <;> simp [denialOutputs, hu, hm]

/-- Without the missing-permission modal, the synthesized forbidden output
stays `None`. -/
theorem denialOutputs_snd_of_none (st : PAState) (n : Nat)
    (hm : st.missing_permission_modal_id = Option.none) :
    (denialOutputs st n).snd = PyVal.none := by
  cases hu : st.unauthenticated_modal_id <;> simp [denialOutputs, hu, hm]

/-- A successful `_action_callback_function` run against list outputs returns
a value whose Python length equals the registered output count. -/
theorem actionCallbackFunction_list_ok (st : PAState) (f : PyVal → PyVal) (inputs : PyVal)
    (os : List DashOutput) (v : PyVal)
    (hne : os ≠ [])
    (hok : actionCallbackFunction st f inputs (CallbackOutputs.list os) = Except.ok v) :
    v.pyLen = some os.length := by
  have hfalsy : (CallbackOutputs.list os).falsy = false := by
    cases os with
    | nil => exact absurd rfl hne
    | cons o t => rfl
  cases hu : st.unauthenticated_modal_id <;> cases hm : st.missing_permission_modal_id <;>
    cases hrv : f inputs <;>
    simp_all [actionCallbackFunction, extendWithFlags, PyVal.isCollection, PyVal.pyLen,
      ok_bind, error_bind] <;>
    (try split at hok) <;> (try simp_all [PyVal.pyLen]) <;> (try subst hok) <;>
    (try simp_all [PyVal.pyLen])


/-- C1 fails as stated: for the missing-permission-only action, setup computes
2 output slots but the unauthenticated dispatch path returns the external
value `None`, which has no length at all, rather than a 2-tuple. -/
theorem C1_counterexample :
    buildSetup actMissingOnly = Except.ok (actMissingOnlyBuilt, coutsMissingOnly) ∧
    coutsMissingOnly.slotCount = 2 ∧
    decide anonSession (requirementOf actMissingOnlyBuilt) = Verdict.unauthenticated ∧
    callbackWrapper actMissingOnlyBuilt coutsMissingOnly anonSession (fun _ => PyVal.num 2)
        PyVal.none = Except.ok ⟨PyVal.none, some PyVal.none⟩ ∧
    PyVal.pyLen PyVal.none = Option.none :=
  ⟨rfl, rfl, rfl, rfl, rfl⟩

/-- C1 (amended): for every list-declared action configuration, setup computes
`len(declared) + modalCount` output slots and records `_n_outputs` as the
declared count; dispatch then returns a result of exactly that arity on the
ALLOWED path and on the denied paths whose denial output is configured, while a
denied path whose corresponding denial output is unconfigured returns the
external value `None` instead. -/
theorem C1_arity_invariant (st st1 : PAState) (couts : CallbackOutputs) (xs : List String)
    (session : Session) (f : PyVal → PyVal) (external : PyVal)
    (h : st.outputs = OutputsDecl.list xs)
    (hbs : buildSetup st = Except.ok (st1, couts)) :
    couts.slotCount = xs.length + modalCount st ∧
    st1.n_outputs = some xs.length ∧
    (∀ res, decide session (requirementOf st) = Verdict.allowed →
      callbackWrapper st1 couts session f external = Except.ok res →
      externalArityOk couts res.external) ∧
    (decide session (requirementOf st) = Verdict.unauthenticated →
      st.unauthenticated_modal_id.isSome = true →
      ∃ t, callbackWrapper st1 couts session f external =
          Except.ok ⟨PyVal.none, some (PyVal.tuple t)⟩ ∧
        t.length = couts.slotCount) ∧
    (decide session (requirementOf st) = Verdict.forbidden →
      st.missing_permission_modal_id.isSome = true →
      ∃ t, callbackWrapper st1 couts session f external =
          Except.ok ⟨PyVal.none, some (PyVal.tuple t)⟩ ∧
        t.length = couts.slotCount) ∧
    (decide session (requirementOf st) = Verdict.unauthenticated →
      st.unauthenticated_modal_id = Option.none →
      callbackWrapper st1 couts session f external =
        Except.ok ⟨PyVal.none,
          if couts = CallbackOutputs.none' then Option.none else some PyVal.none⟩) ∧
    (decide session (requirementOf st) = Verdict.forbidden →
      st.missing_permission_modal_id = Option.none →
      callbackWrapper st1 couts session f external =
        Except.ok ⟨PyVal.none,
          if couts = CallbackOutputs.none' then Option.none else some PyVal.none⟩) := by
  have hbs' : buildSetup st = Except.ok
      ({ st with
          outputs := OutputsDecl.list (xs ++ denialSlotStrings st),
          n_outputs := some xs.length },
        toCallbackOutputs (collapseSingle ((xs ++ denialSlotStrings st).map transformOutput))) := by
    simp [buildSetup, transformedOutputs_list st xs h, ok_bind]
  rw [hbs'] at hbs
  have hpair := Except.ok.inj hbs
  obtain ⟨hst1, hcouts⟩ := Prod.mk.injEq _ _ _ _ |>.mp hpair
  subst hst1
  subst hcouts
  refine ⟨?_, rfl, ?_, ?_, ?_, ?_, ?_⟩
  · rw [slotCount_toCallbackOutputs_collapse]
    simp [denialSlotStrings_length]
  · intro res hd hw
    rw [callbackWrapper_allowed
        { st with
          outputs := OutputsDecl.list (xs ++ denialSlotStrings st),
          n_outputs := some xs.length }
        _ session f external xs.length rfl hd] at hw
    rcases hacf : actionCallbackFunction
        { st with
          outputs := OutputsDecl.list (xs ++ denialSlotStrings st),
          n_outputs := some xs.length } f external
        (toCallbackOutputs (collapseSingle ((xs ++ denialSlotStrings st).map transformOutput)))
      with e | v
    · rw [hacf] at hw
      simp [Except.map] at hw
    · rw [hacf] at hw
      simp only [Except.map, Except.ok.injEq] at hw
      subst hw
      rcases hL : (xs ++ denialSlotStrings st).map transformOutput with _ | ⟨o, _ | ⟨o2, rest⟩⟩
      · simp [hL, externalArityOk, toCallbackOutputs, collapseSingle, TransformedOutputs.truthy]
      · simp [hL, externalArityOk, toCallbackOutputs, collapseSingle, TransformedOutputs.truthy]
      · rw [hL] at hacf
        simp only [hL, toCallbackOutputs, collapseSingle, TransformedOutputs.truthy,
          List.isEmpty_cons, Bool.not_false, if_true, externalArityOk]
        refine ⟨v, ?_, ?_⟩
        · simp
        · exact actionCallbackFunction_list_ok _ f external _ v (by simp)
            (by simpa [toCallbackOutputs, collapseSingle, TransformedOutputs.truthy] using hacf)
  · intro hd hus
    rcases Option.isSome_iff_exists.mp hus with ⟨a, ha⟩
    have hL : ((xs ++ denialSlotStrings st).map transformOutput) ≠ [] := by
      simp [denialSlotStrings, ha]
    obtain ⟨t, hfst, htlen⟩ := denialOutputs_fst_of_unauth
      { st with
        outputs := OutputsDecl.list (xs ++ denialSlotStrings st),
        n_outputs := some xs.length } xs.length a ha
    refine ⟨t, ?_, ?_⟩
    · rw [callbackWrapper_unauthenticated_eq
          { st with
          outputs := OutputsDecl.list (xs ++ denialSlotStrings st),
          n_outputs := some xs.length }
          _ session f external xs.length rfl hd,
        if_neg (toCallbackOutputs_collapse_ne _ hL), hfst]
    · rw [htlen, slotCount_toCallbackOutputs_collapse]
      simp [modalCount, denialSlotStrings_length]
  · intro hd hms
    rcases Option.isSome_iff_exists.mp hms with ⟨b, hb⟩
    have hL : ((xs ++ denialSlotStrings st).map transformOutput) ≠ [] := by
      simp [denialSlotStrings, hb]
    obtain ⟨t, hsnd, htlen⟩ := denialOutputs_snd_of_missing
      { st with
        outputs := OutputsDecl.list (xs ++ denialSlotStrings st),
        n_outputs := some xs.length } xs.length b hb
    refine ⟨t, ?_, ?_⟩
    · rw [callbackWrapper_forbidden_eq
          { st with
          outputs := OutputsDecl.list (xs ++ denialSlotStrings st),
          n_outputs := some xs.length }
          _ session f external xs.length rfl hd,
        if_neg (toCallbackOutputs_collapse_ne _ hL), hsnd]
    · rw [htlen, slotCount_toCallbackOutputs_collapse]
      simp [modalCount, denialSlotStrings_length]
  · intro hd hu
    rw [callbackWrapper_unauthenticated_eq
        { st with
          outputs := OutputsDecl.list (xs ++ denialSlotStrings st),
          n_outputs := some xs.length }
        _ session f external xs.length rfl hd,
      denialOutputs_fst_of_none
        { st with
          outputs := OutputsDecl.list (xs ++ denialSlotStrings st),
          n_outputs := some xs.length }
        xs.length hu]
  · intro hd hm
    rw [callbackWrapper_forbidden_eq
        { st with
          outputs := OutputsDecl.list (xs ++ denialSlotStrings st),
          n_outputs := some xs.length }
        _ session f external xs.length rfl hd,
      denialOutputs_snd_of_none
        { st with
          outputs := OutputsDecl.list (xs ++ denialSlotStrings st),
          n_outputs := some xs.length }
        xs.length hm]


/-- Witness for C1 (amended) at the missing-permission-only action and a
forbidden caller. -/
theorem C1_arity_invariant_witness :
    actMissingOnly.outputs = OutputsDecl.list ["chart.figure"] ∧
    buildSetup actMissingOnly = Except.ok (actMissingOnlyBuilt, coutsMissingOnly) ∧
    (coutsMissingOnly.slotCount = ["chart.figure"].length + modalCount actMissingOnly ∧
    actMissingOnlyBuilt.n_outputs = some ["chart.figure"].length ∧
    (∀ res, decide viewerSession (requirementOf actMissingOnly) = Verdict.allowed →
      callbackWrapper actMissingOnlyBuilt coutsMissingOnly viewerSession (fun _ => PyVal.num 1)
          PyVal.none = Except.ok res →
      externalArityOk coutsMissingOnly res.external) ∧
    (decide viewerSession (requirementOf actMissingOnly) = Verdict.unauthenticated →
      actMissingOnly.unauthenticated_modal_id.isSome = true →
      ∃ t, callbackWrapper actMissingOnlyBuilt coutsMissingOnly viewerSession
            (fun _ => PyVal.num 1) PyVal.none =
          Except.ok ⟨PyVal.none, some (PyVal.tuple t)⟩ ∧
        t.length = coutsMissingOnly.slotCount) ∧
    (decide viewerSession (requirementOf actMissingOnly) = Verdict.forbidden →
      actMissingOnly.missing_permission_modal_id.isSome = true →
      ∃ t, callbackWrapper actMissingOnlyBuilt coutsMissingOnly viewerSession
            (fun _ => PyVal.num 1) PyVal.none =
          Except.ok ⟨PyVal.none, some (PyVal.tuple t)⟩ ∧
        t.length = coutsMissingOnly.slotCount) ∧
    (decide viewerSession (requirementOf actMissingOnly) = Verdict.unauthenticated →
      actMissingOnly.unauthenticated_modal_id = Option.none →
      callbackWrapper actMissingOnlyBuilt coutsMissingOnly viewerSession (fun _ => PyVal.num 1)
          PyVal.none =
        Except.ok ⟨PyVal.none,
          if coutsMissingOnly = CallbackOutputs.none' then Option.none
          else some PyVal.none⟩) ∧
    (decide viewerSession (requirementOf actMissingOnly) = Verdict.forbidden →
      actMissingOnly.missing_permission_modal_id = Option.none →
      callbackWrapper actMissingOnlyBuilt coutsMissingOnly viewerSession (fun _ => PyVal.num 1)
          PyVal.none =
        Except.ok ⟨PyVal.none,
          if coutsMissingOnly = CallbackOutputs.none' then Option.none
          else some PyVal.none⟩)) :=
  ⟨rfl, rfl,
   C1_arity_invariant actMissingOnly actMissingOnlyBuilt coutsMissingOnly ["chart.figure"]
     viewerSession (fun _ => PyVal.num 1) PyVal.none rfl rfl⟩

end KVL
